import Mathlib

/-
Verification of the qring backend's realtime session gateway.

The definitions below are shallow embeddings of:
  app/socket/manager.py        (SocketState: presence registry)
  app/services/door_routing_service.py (select_door)
  app/services/session_service.py      (create_visitor_session, mark_session_status)
  app/api/routes/homeowner.py          (homeowner_visit_decision, homeowner_end_visit)
  app/services/qr_service.py           (resolve_qr)
  app/socket/events.py                 (chat_message, persist_chat_message_with_retry)

Python dicts are embedded as functions to Option, database tables as lists of
records, timestamps as naturals, and fallible code as Except/Option results.
Python truthiness on optional strings (None and the empty string are falsy) is
embedded explicitly wherever the source relies on it.
-/

/-- Presence registry state, from app/socket/manager.py (class SocketState).
The two Python dicts user_sid and sid_user are embedded as partial maps. -/
structure SocketState where
  user_sid : String → Option String
  sid_user : String → Option String

/-- SocketState.bind from app/socket/manager.py: sets both directions,
overwriting the forward entry for user_id and the reverse entry for sid.
It does not touch the reverse entry of any previously bound sid. -/
def SocketState.bind (st : SocketState) (user_id sid : String) : SocketState :=
  { user_sid := fun k => if k = user_id then some sid else st.user_sid k
    sid_user := fun k => if k = sid then some user_id else st.sid_user k }

/-- SocketState.unbind_sid from app/socket/manager.py: pops the reverse entry
for sid; pops the forward entry for the recovered user only when it still
points at this sid. -/
def SocketState.unbind_sid (st : SocketState) (sid : String) : SocketState :=
  match st.sid_user sid with
  | some u =>
      if st.user_sid u = some sid then
        { user_sid := fun k => if k = u then none else st.user_sid k
          sid_user := fun k => if k = sid then none else st.sid_user k }
      else
        { user_sid := st.user_sid
          sid_user := fun k => if k = sid then none else st.sid_user k }
  | none =>
      { user_sid := st.user_sid
        sid_user := fun k => if k = sid then none else st.sid_user k }

/-- SocketState.get_sid from app/socket/manager.py. -/
def SocketState.get_sid (st : SocketState) (user_id : String) : Option String :=
  st.user_sid user_id

/-- The empty registry (the state of the module-level socket_state at startup). -/
def SocketState.empty : SocketState :=
  { user_sid := fun _ => none, sid_user := fun _ => none }

/-- Errors raised by select_door (AppException messages in
app/services/door_routing_service.py). -/
inductive DoorError where
  | noDoorsConfigured
  | selectionRequired
deriving DecidableEq, Repr

deriving instance DecidableEq for Except

/-- select_door from app/services/door_routing_service.py. The Python guard
"requested_door and requested_door in doors" is truthiness (non-empty) plus
membership; it is checked before the selector-mode failure, so an unknown mode
with a valid requested door returns the requested door. -/
def select_door (doors : List String) (mode : String) (requested_door : Option String) :
    Except DoorError String :=
  match doors with
  | [] => .error .noDoorsConfigured
  | d0 :: rest =>
      if mode = "direct" then .ok d0
      else
        match requested_door with
        | some r =>
            if r ≠ "" ∧ r ∈ d0 :: rest then .ok r
            else if mode = "selector" then .error .selectionRequired
            else .ok d0
        | none =>
            if mode = "selector" then .error .selectionRequired
            else .ok d0

/-- Python truthiness of an optional string: None and the empty string are
falsy. -/
def opt_truthy (o : Option String) : Bool :=
  match o with
  | none => false
  | some s => s != ""

/-- Embedding of Python str.strip with no argument: drop whitespace from both
ends. -/
def py_strip (s : String) : String :=
  ⟨((s.data.dropWhile Char.isWhitespace).reverse.dropWhile Char.isWhitespace).reverse⟩

/-- Embedding of Python str.lower over the character list. -/
def py_lower (s : String) : String :=
  ⟨s.data.map Char.toLower⟩

/-- Truthiness of the requested_door argument combined with membership,
exactly the Python condition "requested_door and requested_door in doors". -/
def requested_valid (doors : List String) (requested_door : Option String) : Prop :=
  match requested_door with
  | none => False
  | some r => r ≠ "" ∧ r ∈ doors

instance (doors : List String) (requested_door : Option String) :
    Decidable (requested_valid doors requested_door) := by
  unfold requested_valid
  cases requested_door <;> infer_instance

/-- User row, from app/db/models/user.py (only the columns the gateway reads). -/
structure UserRow where
  id : String
  full_name : String
deriving DecidableEq, Repr

/-- Estate row, from app/db/models/estate.py. -/
structure EstateRow where
  id : String
  name : String
  owner_id : String
deriving DecidableEq, Repr

/-- Home row, from app/db/models/estate.py. -/
structure HomeRow where
  id : String
  name : String
  estate_id : Option String
  homeowner_id : String
deriving DecidableEq, Repr

/-- Door row, from app/db/models/estate.py. -/
structure DoorRow where
  id : String
  name : String
  home_id : String
  is_active : String
deriving DecidableEq, Repr

/-- QR code row, from app/db/models/qr_code.py. -/
structure QRCodeRow where
  qr_id : String
  plan : String
  home_id : String
  doors_csv : String
  mode : String
  estate_id : Option String
  active : Bool
deriving DecidableEq, Repr

/-- Visitor session row, from app/db/models/session.py (class VisitorSession).
Timestamps are abstract naturals; ended_at is nullable. -/
structure VisitorSession where
  id : String
  qr_id : String
  home_id : String
  door_id : String
  homeowner_id : String
  visitor_label : String
  status : String
  started_at : Nat
  ended_at : Option Nat
deriving DecidableEq, Repr

/-- The relational state the gateway services read and write: one list per
table used by session_service.py and qr_service.py. -/
structure Db where
  users : List UserRow
  estates : List EstateRow
  homes : List HomeRow
  doors : List DoorRow
  qr_codes : List QRCodeRow
  sessions : List VisitorSession
deriving DecidableEq, Repr

/-- create_visitor_session from app/services/session_service.py. The selected
door is looked up; a missing door falls back to the QR's home id, a missing
home to an empty homeowner id; the session always starts with status pending.
The fresh row id and the clock reading are passed explicitly. -/
def create_visitor_session (db : Db) (qr_id : String) (qr_home_id : String)
    (doors : List String) (mode : String) (requested_door : Option String)
    (visitor_label : String) (new_id : String) (now : Nat) :
    Except DoorError (Db × VisitorSession) :=
  match select_door doors mode requested_door with
  | .error e => .error e
  | .ok selected_door =>
      let door := db.doors.find? (fun d => d.id == selected_door)
      let home_key := match door with
        | some d => d.home_id
        | none => qr_home_id
      let home := db.homes.find? (fun h => h.id == home_key)
      let homeowner_id := match home with
        | some h => h.homeowner_id
        | none => ""
      let session : VisitorSession :=
        { id := new_id
          qr_id := qr_id
          home_id := match home with
            | some h => h.id
            | none => qr_home_id
          door_id := match door with
            | some d => d.id
            | none => selected_door
          homeowner_id := homeowner_id
          visitor_label := visitor_label
          status := "pending"
          started_at := now
          ended_at := none }
      .ok ({ db with sessions := db.sessions ++ [session] }, session)

/-- The statuses session_service.py treats as terminal when stamping ended_at. -/
def terminal_statuses : List String := ["rejected", "closed", "completed"]

/-- mark_session_status from app/services/session_service.py: finds the
session, sets the requested status unconditionally, and stamps ended_at with
the current time when the target is terminal and ended_at is still null
(the Python "session.ended_at or datetime.utcnow()"). -/
def mark_session_status (db : Db) (session_id : String) (status : String) (now : Nat) :
    Option (Db × VisitorSession) :=
  match db.sessions.find? (fun s => s.id == session_id) with
  | none => none
  | some s =>
      let s2 : VisitorSession :=
        { s with
          status := status
          ended_at :=
            if terminal_statuses.contains status then
              match s.ended_at with
              | some t => some t
              | none => some now
            else s.ended_at }
      some ({ db with sessions := db.sessions.map (fun t => if t.id == session_id then s2 else t) },
            s2)

/-- Errors raised by the homeowner visit routes (AppException in
app/api/routes/homeowner.py). -/
inductive RouteError where
  | badRequest
  | notFound
deriving DecidableEq, Repr

/-- homeowner_visit_decision from app/api/routes/homeowner.py: normalises the
action, rejects anything but approve/reject, requires a session owned by the
calling homeowner, and delegates to mark_session_status. It performs no check
on the session's current status. -/
def homeowner_visit_decision (db : Db) (user_id : String) (session_id : String)
    (action : String) (now : Nat) : Except RouteError (Db × VisitorSession) :=
  let a := py_lower (py_strip action)
  if a ≠ "approve" ∧ a ≠ "reject" then .error .badRequest
  else
    match db.sessions.find? (fun s => s.id == session_id && s.homeowner_id == user_id) with
    | none => .error .notFound
    | some _ =>
        match mark_session_status db session_id (if a = "approve" then "approved" else "rejected") now with
        | none => .error .notFound
        | some r => .ok r

/-- homeowner_end_visit from app/api/routes/homeowner.py: requires a session
owned by the calling homeowner and marks it closed, with no check on the
session's current status. -/
def homeowner_end_visit (db : Db) (user_id : String) (session_id : String)
    (now : Nat) : Except RouteError (Db × VisitorSession) :=
  match db.sessions.find? (fun s => s.id == session_id && s.homeowner_id == user_id) with
  | none => .error .notFound
  | some _ =>
      match mark_session_status db session_id "closed" now with
      | none => .error .notFound
      | some r => .ok r

/-- Errors raised by resolve_qr (AppException in app/services/qr_service.py). -/
inductive QrError where
  | notFoundInactive
  | subscriptionExpired
deriving DecidableEq, Repr

/-- One entry of the door_options list built by resolve_qr. -/
structure DoorOption where
  id : String
  name : String
  homeId : String
  homeName : String
  homeownerId : String
  homeownerName : String
deriving DecidableEq, Repr

/-- The dict returned by resolve_qr on success. -/
structure QrResolved where
  qr_id : String
  plan : String
  home_id : String
  doors : List String
  doorOptions : List DoorOption
  mode : String
  estate_id : Option String
  active : Bool
deriving DecidableEq, Repr

/-- The door-id list resolve_qr derives from doors_csv: split on commas,
strip, and keep the non-empty entries. -/
def qr_door_ids (doors_csv : String) : List String :=
  ((doors_csv.splitOn ",").map String.trim).filter (fun s => s ≠ "")

/-- The inner join Door-Home-User that resolve_qr performs for one door id:
present exactly when the door, its home, and the home's owner all exist. -/
def door_option_for (db : Db) (door_id : String) : Option DoorOption :=
  match db.doors.find? (fun d => d.id == door_id) with
  | none => none
  | some door =>
      match db.homes.find? (fun h => h.id == door.home_id) with
      | none => none
      | some home =>
          match db.users.find? (fun u => u.id == home.homeowner_id) with
          | none => none
          | some user =>
              some { id := door.id, name := door.name, homeId := home.id,
                     homeName := home.name, homeownerId := user.id,
                     homeownerName := user.full_name }

/-- The success payload of resolve_qr: when every door option was dropped the
raw door-id list is returned instead (the Python "if door_options else"). -/
def qr_resolution_payload (db : Db) (qr : QRCodeRow) : QrResolved :=
  let door_ids := qr_door_ids qr.doors_csv
  let door_options := door_ids.filterMap (door_option_for db)
  { qr_id := qr.qr_id
    plan := qr.plan
    home_id := qr.home_id
    doors := if door_options.isEmpty then door_ids else door_options.map (fun o => o.id)
    doorOptions := door_options
    mode := qr.mode
    estate_id := qr.estate_id
    active := qr.active }

/-- The cascading deactivation resolve_qr commits before raising the
subscription-expired error: every active code of the estate is flagged
inactive. -/
def cascade_deactivate (db : Db) (eid : String) : Db :=
  { db with qr_codes := db.qr_codes.map (fun q =>
      if q.estate_id == some eid && q.active then { q with active := false } else q) }

/-- resolve_qr from app/services/qr_service.py. The missing/inactive check
comes first; only an active code belonging to an estate whose owner fails the
subscription check triggers the cascade. The collaborator
is_paid_subscription_expired (app/services/payment_service.py, a function of
subscription rows and the wall clock) is abstracted as the boolean function
expired over owner ids; the cascade does not modify subscription state, so
the abstraction is exact for the call. The new table state is returned next
to the outcome because the expired branch both writes and fails. -/
def resolve_qr (expired : String → Bool) (db : Db) (qr_id : String) :
    Db × Except QrError QrResolved :=
  match db.qr_codes.find? (fun q => q.qr_id == qr_id) with
  | none => (db, .error .notFoundInactive)
  | some qr =>
      if qr.active = false then (db, .error .notFoundInactive)
      else if opt_truthy qr.estate_id then
        match db.estates.find? (fun e => e.id == qr.estate_id.getD "") with
        | some estate =>
            if expired estate.owner_id then
              (cascade_deactivate db (qr.estate_id.getD ""), .error .subscriptionExpired)
            else (db, .ok (qr_resolution_payload db qr))
        | none => (db, .ok (qr_resolution_payload db qr))
      else (db, .ok (qr_resolution_payload db qr))

/-- Inbound chat.message payload fields read by the handler in
app/socket/events.py; every field is optional on the wire. -/
structure ChatPayload where
  sessionId : Option String
  text : Option String
  clientId : Option String
  senderType : Option String
  displayName : Option String
deriving DecidableEq, Repr

/-- The common field set of the outbound chat.message / chat.persisted /
chat.persist_failed payloads. -/
structure ChatEventBody where
  id : String
  sessionId : String
  text : String
  clientId : Option String
  senderType : String
  displayName : String
  created_at : String
  persisted : Bool
deriving DecidableEq, Repr

/-- A socket emission performed by the chat pipeline, with its addressing. -/
inductive Emit where
  | chatMessage (body : ChatEventBody) (sender_sid : String) (room : String)
  | chatAck (id : String) (sessionId : String) (clientId : Option String)
      (created_at : String) (to_sid : String)
  | chatPersisted (body : ChatEventBody) (room : String)
  | chatPersistFailed (body : ChatEventBody) (error : String) (to_sid : String)
deriving DecidableEq, Repr

/-- The message row inserted by the persistence task, from
app/db/models/session.py (class Message). -/
structure MessageRow where
  id : String
  session_id : String
  sender_type : String
  body : String
  created_at : String
deriving DecidableEq, Repr

/-- The keyword arguments of persist_chat_message_with_retry in
app/socket/events.py. -/
structure PersistArgs where
  sid : String
  session_id : String
  message_id : String
  body : String
  sender_user_id : Option String
  optimistic_sender_type : String
  display_name : String
  created_at_iso : String
  client_id : Option String
deriving DecidableEq, Repr

/-- CHAT_PERSIST_RETRY_DELAYS from app/socket/events.py, in centiseconds
(the source values are 0.35, 1.0 and 2.0 seconds); only the length drives
the retry loop. -/
def CHAT_PERSIST_RETRY_DELAYS : List Nat := [35, 100, 200]

/-- The outcome the environment hands one iteration of the persistence loop:
the session query found nothing, the attempt raised, or the insert committed
after reading the session's homeowner id. -/
inductive PersistAttempt where
  | sessionNotFound
  | raised (err : String)
  | committed (session_homeowner_id : String)
deriving DecidableEq, Repr

/-- The authoritative sender type computed inside the persistence task:
the Python "homeowner if sender_user_id and sender_user_id ==
session.homeowner_id else visitor", where sender_user_id is the presence
registry's identity (None and the empty string are falsy). -/
def resolved_sender_type (sender_user_id : Option String) (session_homeowner_id : String) :
    String :=
  match sender_user_id with
  | some u => if u ≠ "" ∧ u = session_homeowner_id then "homeowner" else "visitor"
  | none => "visitor"

/-- The session room name, the Python f-string over the session id. -/
def room_of (session_id : String) : String := "session:" ++ session_id

/-- The shared outbound chat payload shape for a given sender type and
persisted flag. -/
def chat_event_body (args : PersistArgs) (sender_type : String) (persisted : Bool) :
    ChatEventBody :=
  { id := args.message_id
    sessionId := args.session_id
    text := args.body
    clientId := args.client_id
    senderType := sender_type
    displayName := args.display_name
    created_at := args.created_at_iso
    persisted := persisted }

/-- The retry loop body of persist_chat_message_with_retry: one outcome per
remaining configured attempt. A missing session breaks out and reports
session_not_found to the sender only; a committed insert emits chat.persisted
to the room with the server-resolved sender type; a raised attempt records
the error and falls through to the next attempt; an exhausted budget reports
the last error to the sender only. The first component is the durably
inserted row, when any. -/
def persist_attempts (args : PersistArgs) (outcomes : List PersistAttempt)
    (last_error : String) : Option MessageRow × List Emit :=
  match outcomes with
  | [] =>
      (none, [.chatPersistFailed (chat_event_body args args.optimistic_sender_type false)
                last_error args.sid])
  | o :: rest =>
      match o with
      | .sessionNotFound =>
          (none, [.chatPersistFailed (chat_event_body args args.optimistic_sender_type false)
                    "session_not_found" args.sid])
      | .raised err => persist_attempts args rest err
      | .committed hid =>
          let sender_type := resolved_sender_type args.sender_user_id hid
          (some { id := args.message_id, session_id := args.session_id,
                  sender_type := sender_type, body := args.body,
                  created_at := args.created_at_iso },
           [.chatPersisted (chat_event_body args sender_type true) (room_of args.session_id)])

/-- persist_chat_message_with_retry from app/socket/events.py: runs exactly
one attempt per entry of CHAT_PERSIST_RETRY_DELAYS, starting from the
last_error value "unknown_error". -/
def persist_chat_message_with_retry (args : PersistArgs) (outcomes : List PersistAttempt) :
    Option MessageRow × List Emit :=
  persist_attempts args (outcomes.take CHAT_PERSIST_RETRY_DELAYS.length) "unknown_error"

/-- The display-hint sender type the handler broadcasts: the client claim,
clamped to the two known values. -/
def optimistic_hint (payload : ChatPayload) : String :=
  match payload.senderType with
  | some t => if t = "homeowner" ∨ t = "visitor" then t else "visitor"
  | none => "visitor"

/-- The display name the handler broadcasts: the claimed one when truthy,
"Participant" otherwise. -/
def display_or_default (payload : ChatPayload) : String :=
  match payload.displayName with
  | some d => if d ≠ "" then d else "Participant"
  | none => "Participant"

/-- The keyword arguments chat_message hands the persistence task: the
presence registry's identity for the connection is captured here. -/
def chat_args (st : SocketState) (sid : String) (payload : ChatPayload)
    (message_id created_at session_id : String) : PersistArgs :=
  { sid := sid
    session_id := session_id
    message_id := message_id
    body := py_strip (payload.text.getD "")
    sender_user_id := st.sid_user sid
    optimistic_sender_type := optimistic_hint payload
    display_name := display_or_default payload
    created_at_iso := created_at
    client_id := payload.clientId }

/-- The chat.message handler in app/socket/events.py up to the point where it
schedules the persistence task: validation (a falsy sessionId or a blank text
is a silent no-op), the optimistic room broadcast with persisted false, and
the queued ack to the sender. Returns the emissions plus the arguments of the
scheduled task, if any. The fresh message id and the clock reading are passed
explicitly. -/
def chat_message (st : SocketState) (sid : String) (payload : ChatPayload)
    (message_id : String) (created_at : String) : List Emit × Option PersistArgs :=
  if opt_truthy payload.sessionId = false ∨ py_strip (payload.text.getD "") = "" then
    ([], none)
  else
    ([.chatMessage (chat_event_body
        (chat_args st sid payload message_id created_at (payload.sessionId.getD ""))
        (optimistic_hint payload) false) sid (room_of (payload.sessionId.getD "")),
      .chatAck message_id (payload.sessionId.getD "") payload.clientId created_at sid],
     some (chat_args st sid payload message_id created_at (payload.sessionId.getD "")))

/-- The whole chat pipeline for one submission: the handler followed by the
persistence task it scheduled, the emissions in order of occurrence. -/
def chat_submission (st : SocketState) (sid : String) (payload : ChatPayload)
    (message_id : String) (created_at : String) (outcomes : List PersistAttempt) :
    Option MessageRow × List Emit :=
  match chat_message st sid payload message_id created_at with
  | (evs, none) => (none, evs)
  | (evs, some args) =>
      let r := persist_chat_message_with_retry args outcomes
      (r.1, evs ++ r.2)

/-- Recogniser for the optimistic chat.message broadcast. -/
def is_chat_broadcast : Emit → Bool
  | .chatMessage _ _ _ => true
  | _ => false

/-- Recogniser for the two terminal persistence dispositions. -/
def is_terminal_disposition : Emit → Bool
  | .chatPersisted _ _ => true
  | .chatPersistFailed _ _ _ => true
  | _ => false

/-- Success recogniser for Except results. -/
def except_ok {ε α : Type} : Except ε α → Bool
  | .ok _ => true
  | .error _ => false

/-- Table states reachable from a session-free database via the two mutating
operations of session_service.py: createSession and the status transition. -/
inductive Reachable : Db → Prop where
  | init (users : List UserRow) (estates : List EstateRow) (homes : List HomeRow)
      (doors : List DoorRow) (qr_codes : List QRCodeRow) :
      Reachable { users := users, estates := estates, homes := homes,
                  doors := doors, qr_codes := qr_codes, sessions := [] }
  | create (db : Db) (qr_id qr_home_id : String) (doors : List String) (mode : String)
      (requested_door : Option String) (visitor_label new_id : String) (now : Nat)
      (db2 : Db) (s : VisitorSession) :
      Reachable db →
      create_visitor_session db qr_id qr_home_id doors mode requested_door
        visitor_label new_id now = .ok (db2, s) →
      Reachable db2
  | mark (db : Db) (session_id status : String) (now : Nat)
      (db2 : Db) (s : VisitorSession) :
      Reachable db →
      mark_session_status db session_id status now = some (db2, s) →
      Reachable db2

/-- The spec's session invariant as stated: ended_at is set exactly when the
status is terminal. -/
def ended_iff_terminal (db : Db) : Prop :=
  ∀ s ∈ db.sessions, (terminal_statuses.contains s.status = true ↔ s.ended_at ≠ none)

/-- A database with every table empty. -/
def emptyDb : Db :=
  { users := [], estates := [], homes := [], doors := [], qr_codes := [], sessions := [] }

/-- A closed session owned by homeowner o1 whose ended_at is already stamped. -/
def closedSession : VisitorSession :=
  { id := "s1", qr_id := "q1", home_id := "h1", door_id := "d1", homeowner_id := "o1",
    visitor_label := "Visitor", status := "closed", started_at := 0, ended_at := some 5 }

/-- A database holding only closedSession. -/
def closedDb : Db := { emptyDb with sessions := [closedSession] }

/-- The session created by a visitor request against an empty database:
no door row, so the home falls back to the QR home id and the homeowner id to
the empty string. -/
def pendingSession : VisitorSession :=
  { id := "s1", qr_id := "q1", home_id := "h1", door_id := "d1", homeowner_id := "",
    visitor_label := "Visitor", status := "pending", started_at := 0, ended_at := none }

/-- The database after that creation. -/
def pendingDb : Db := { emptyDb with sessions := [pendingSession] }

/-- pendingSession after a transition to closed at time 5. -/
def closedSession2 : VisitorSession :=
  { pendingSession with status := "closed", ended_at := some 5 }

/-- The database after that transition. -/
def closedDb2 : Db := { emptyDb with sessions := [closedSession2] }

/-- closedSession2 after a further transition to approved at time 7: the
status is no longer terminal but ended_at keeps its stamp. -/
def reApprovedSession : VisitorSession :=
  { pendingSession with status := "approved", ended_at := some 5 }

/-- The database after that further transition. -/
def reApprovedDb : Db := { emptyDb with sessions := [reApprovedSession] }

/-- The session created by createSession against a database with no homes. -/
def c6Session : VisitorSession :=
  { id := "s9", qr_id := "q9", home_id := "hX", door_id := "d1", homeowner_id := "",
    visitor_label := "Visitor", status := "pending", started_at := 3, ended_at := none }

/-- An active estate-bound QR code. -/
def qrA : QRCodeRow :=
  { qr_id := "q1", plan := "single", home_id := "h1", doors_csv := "d1",
    mode := "direct", estate_id := some "e1", active := true }

/-- A second active code under the same estate. -/
def qrB : QRCodeRow :=
  { qr_id := "q2", plan := "single", home_id := "h2", doors_csv := "d2",
    mode := "direct", estate_id := some "e1", active := true }

/-- The estate owning both codes. -/
def estate1 : EstateRow := { id := "e1", name := "Estate One", owner_id := "o1" }

/-- A database with the estate and its two active codes. -/
def qrDb : Db := { emptyDb with estates := [estate1], qr_codes := [qrA, qrB] }

/-- qrDb after the subscription-expiry cascade on estate e1. -/
def qrDb2 : Db := cascade_deactivate qrDb "e1"

/-- closedSession after the decision route applies approve to it. -/
def closedSessionApproved : VisitorSession := { closedSession with status := "approved" }

/-- The database the decision route produces from closedDb. -/
def closedDbApproved : Db := { emptyDb with sessions := [closedSessionApproved] }

/-- closedSession re-closed at time 10: ended_at keeps its stamp of 5. -/
def closedSessionReClosed : VisitorSession :=
  { closedSession with status := "closed", ended_at := some (closedSession.ended_at.getD 10) }

/-- The database produced by re-closing closedSession. -/
def closedDbReClosed : Db :=
  { closedDb with
    sessions := closedDb.sessions.map fun t => if t.id == "s1" then closedSessionReClosed else t }

/-- A concrete valid chat submission payload. -/
def c3Payload : ChatPayload :=
  { sessionId := some "sess1", text := some " hello ", clientId := some "cl1",
    senderType := some "visitor", displayName := some "Vis" }

/-- A concrete persistence history: one transient failure, then a commit. -/
def c3Outs : List PersistAttempt := [.raised "db down", .committed "o1", .raised "x"]

/-- A chat payload claiming to be the homeowner. -/
def c4Payload1 : ChatPayload :=
  { sessionId := some "sess1", text := some "hi", clientId := none,
    senderType := some "homeowner", displayName := none }

/-- The same payload claiming to be a visitor instead. -/
def c4Payload2 : ChatPayload := { c4Payload1 with senderType := some "visitor" }

/-- A registry binding identity o1 to connection c9. -/
def c4State : SocketState := SocketState.empty.bind "o1" "c9"

/-- A persistence history committing against homeowner o1. -/
def c4Outs : List PersistAttempt := [.committed "o1"]

/-- A successful createSession appends exactly one session, which starts
pending with a null ended_at. -/
theorem create_visitor_session_ok (db : Db) (qr_id qr_home_id : String)
    (doors : List String) (mode : String) (requested_door : Option String)
    (visitor_label new_id : String) (now : Nat) (db2 : Db) (s : VisitorSession)
    (h : create_visitor_session db qr_id qr_home_id doors mode requested_door
      visitor_label new_id now = .ok (db2, s)) :
    db2.sessions = db.sessions ++ [s] ∧ s.status = "pending" ∧ s.ended_at = none := by
  unfold create_visitor_session at h
  cases hsel : select_door doors mode requested_door with
  | error e => rw [hsel] at h; exact absurd h (by simp)
  | ok d =>
      rw [hsel] at h
      simp only [Except.ok.injEq, Prod.mk.injEq] at h
      obtain ⟨hdb, hs⟩ := h
      subst hdb
      subst hs
      exact ⟨rfl, rfl, rfl⟩

/-- A successful status transition is the pointwise update of the found
session, with ended_at stamped when the target is terminal and unset. -/
theorem mark_session_status_some (db : Db) (session_id status : String) (now : Nat)
    (db2 : Db) (s2 : VisitorSession)
    (h : mark_session_status db session_id status now = some (db2, s2)) :
    ∃ s, db.sessions.find? (fun t => t.id == session_id) = some s ∧
      s2 = { s with
        status := status
        ended_at :=
          if terminal_statuses.contains status then
            match s.ended_at with
            | some t => some t
            | none => some now
          else s.ended_at } ∧
      db2.sessions = db.sessions.map (fun t => if t.id == session_id then s2 else t) := by
  unfold mark_session_status at h
  cases hf : db.sessions.find? (fun t => t.id == session_id) with
  | none => rw [hf] at h; exact absurd h (by simp)
  | some s =>
      rw [hf] at h
      simp only [Option.some.injEq, Prod.mk.injEq] at h
      obtain ⟨hdb, hs⟩ := h
      subst hs
      subst hdb
      exact ⟨s, rfl, rfl, rfl⟩

/-- C2 counterexample: after bind(u, c1); bind(u, c2) the reverse mapping for
c1 still resolves to u — the claimed detachment does not happen, even though
lookup(u) does return c2. -/
theorem bind_rebind_reverse_persists_cex :
    ((SocketState.empty.bind "u" "c1").bind "u" "c2").get_sid "u" = some "c2" ∧
    ((SocketState.empty.bind "u" "c1").bind "u" "c2").sid_user "c1" = some "u" := by
  exact ⟨by decide, by decide⟩

/-- C2 amended: bind is last-write-wins on the forward mapping — after
bind(u, c1); bind(u, c2), lookup(u) returns c2 — but the prior connection's
reverse mapping is not detached: sid_user still maps c1 to u. -/
theorem bind_last_write_wins_reverse_stale (st : SocketState) (u c1 c2 : String) :
    ((st.bind u c1).bind u c2).get_sid u = some c2 ∧
    ((st.bind u c1).bind u c2).sid_user c1 = some u := by
  refine ⟨?_, ?_⟩
  · simp [SocketState.bind, SocketState.get_sid]
  · by_cases h : c1 = c2
    · simp [SocketState.bind, h]
    · simp [SocketState.bind, h]

/-- C10: unbinding a stale connection c1 after the user has re-bound to c2
leaves the current forward binding intact, because unbind_sid pops the
forward entry only when it still points at the sid being unbound. -/
theorem unbind_stale_preserves_current_binding (st : SocketState) (u c1 c2 : String)
    (h : c1 ≠ c2) :
    (((st.bind u c1).bind u c2).unbind_sid c1).get_sid u = some c2 := by
  have h1 : ((st.bind u c1).bind u c2).sid_user c1 = some u := by
    by_cases hc : c1 = c2
    · simp [SocketState.bind, hc]
    · simp [SocketState.bind, hc]
  have h2 : ((st.bind u c1).bind u c2).user_sid u = some c2 := by
    simp [SocketState.bind]
  have hne : ¬ ((st.bind u c1).bind u c2).user_sid u = some c1 := by
    rw [h2]
    simp
    exact fun hcc => h hcc.symm
  unfold SocketState.get_sid
  simp only [SocketState.unbind_sid, h1]
  rw [if_neg hne]
  exact h2

/-- C10 witness at concrete inputs. -/
theorem unbind_stale_preserves_current_binding_witness :
    (((SocketState.empty.bind "u" "c1").bind "u" "c2").unbind_sid "c1").get_sid "u" =
      some "c2" :=
  unbind_stale_preserves_current_binding SocketState.empty "u" "c1" "c2" (by decide)

/-- C5 counterexample: with an unknown mode and a requested door that is a
member of the list, select_door returns the requested door, not doors[0]. -/
theorem select_door_unknown_mode_requested_cex :
    select_door ["a", "b"] "auto" (some "b") = .ok "b" ∧
    (Except.ok "b" : Except DoorError String) ≠ .ok "a" := by
  exact ⟨by decide, by decide⟩

/-- C5 amended: for a non-empty door list and a mode that is neither direct
nor selector, select_door returns the requested door whenever it is present
(non-empty) and a member of the list, and falls back to doors[0] only when no
such valid request exists. -/
theorem select_door_unknown_mode_fallback (d0 : String) (tl : List String) (mode : String)
    (rd : Option String) (h1 : mode ≠ "direct") (h2 : mode ≠ "selector") :
    (∀ r, rd = some r → r ≠ "" → r ∈ d0 :: tl → select_door (d0 :: tl) mode rd = .ok r) ∧
    (¬ requested_valid (d0 :: tl) rd → select_door (d0 :: tl) mode rd = .ok d0) := by
  constructor
  · intro r hrd hr hmem
    subst hrd
    simp only [select_door]
    rw [if_neg h1, if_pos ⟨hr, hmem⟩]
  · intro hnv
    cases rd with
    | none =>
        simp only [select_door]
        rw [if_neg h1, if_neg h2]
    | some r =>
        have hcond : ¬ (r ≠ "" ∧ r ∈ d0 :: tl) := by
          simpa [requested_valid] using hnv
        simp only [select_door]
        rw [if_neg h1, if_neg hcond, if_neg h2]

/-- C5 witness: unknown mode "auto" over doors [a, b] returns the valid
requested door b, and falls back to a when no door is requested. -/
theorem select_door_unknown_mode_fallback_witness :
    select_door ["a", "b"] "auto" (some "b") = .ok "b" ∧
    select_door ["a", "b"] "auto" none = .ok "a" :=
  ⟨(select_door_unknown_mode_fallback "a" ["b"] "auto" (some "b")
      (by decide) (by decide)).1 "b" rfl (by decide) (by decide),
   (select_door_unknown_mode_fallback "a" ["b"] "auto" none
      (by decide) (by decide)).2 (by decide)⟩

/-- C1 counterexample: the decision route applies approve to a session whose
status is already closed — it succeeds and updates the session instead of
failing with an invalid-transition error. -/
theorem closed_to_approved_decision_succeeds :
    homeowner_visit_decision closedDb "o1" "s1" "approve" 10 =
      .ok (closedDbApproved, closedSessionApproved) := by
  decide

/-- C1 amended: the status-transition operation performs no state-machine
validation — for every existing session and every target status it succeeds
and installs that status (the route only restricts the action string to
approve/reject and requires ownership); in particular closed to approved
succeeds rather than failing. -/
theorem mark_session_status_unguarded (db : Db) (session_id status : String) (now : Nat)
    (h : (db.sessions.find? (fun s => s.id == session_id)).isSome = true) :
    ∃ p, mark_session_status db session_id status now = some p ∧ p.2.status = status := by
  unfold mark_session_status
  cases hf : db.sessions.find? (fun s => s.id == session_id) with
  | none => rw [hf] at h; exact absurd h (by simp)
  | some s => exact ⟨_, rfl, rfl⟩

/-- C1 amended witness: a closed session accepts a transition to approved. -/
theorem mark_session_status_unguarded_witness :
    ∃ p, mark_session_status closedDb "s1" "approved" 10 = some p ∧ p.2.status = "approved" :=
  mark_session_status_unguarded closedDb "s1" "approved" 10 (by decide)

/-- C8: a transition to a terminal status always succeeds on an existing
session and leaves ended_at at its prior stamp when set, stamping the current
time only when it was null; re-closing an already-closed session is therefore
a no-op on ended_at, not an error. -/
theorem mark_terminal_stamps_ended_at_once (db : Db) (session_id status : String)
    (now : Nat) (s : VisitorSession)
    (hf : db.sessions.find? (fun t => t.id == session_id) = some s)
    (ht : terminal_statuses.contains status = true) :
    mark_session_status db session_id status now =
      some ({ db with sessions := db.sessions.map (fun t => if t.id == session_id then
                { s with status := status, ended_at := some (s.ended_at.getD now) } else t) },
            { s with status := status, ended_at := some (s.ended_at.getD now) }) := by
  have hend : (if terminal_statuses.contains status then
      (match s.ended_at with
       | some t => some t
       | none => some now)
      else s.ended_at) = some (s.ended_at.getD now) := by
    rw [if_pos ht]
    cases s.ended_at <;> rfl
  simp only [mark_session_status, hf, hend]

/-- C8 witness: re-closing closedSession keeps its ended_at stamp of 5. -/
theorem mark_terminal_stamps_ended_at_once_witness :
    mark_session_status closedDb "s1" "closed" 10 =
      some (closedDbReClosed, closedSessionReClosed) := by
  have h := mark_terminal_stamps_ended_at_once closedDb "s1" "closed" 10 closedSession
    (by decide) (by decide)
  rw [h]
  decide

/-- C6 counterexample: against a database with no door and no home rows,
createSession succeeds (with an empty homeowner id) instead of failing. -/
theorem create_session_missing_home_succeeds_cex :
    create_visitor_session emptyDb "q9" "hX" ["d1"] "direct" none "Visitor" "s9" 3 =
      .ok ({ emptyDb with sessions := [c6Session] }, c6Session) ∧
    c6Session.homeowner_id = "" := by
  exact ⟨by decide, by decide⟩

/-- C6 amended: createSession fails exactly when door selection fails; a
resolved door with no owning home or homeowner does not make it fail — the
homeowner id falls back to the empty string — and every created session
starts pending. -/
theorem create_session_pending_iff_door_selected (db : Db) (qr_id qr_home_id : String)
    (doors : List String) (mode : String) (rd : Option String) (vl nid : String)
    (now : Nat) :
    (except_ok (create_visitor_session db qr_id qr_home_id doors mode rd vl nid now) =
      except_ok (select_door doors mode rd)) ∧
    (∀ db2 s, create_visitor_session db qr_id qr_home_id doors mode rd vl nid now =
        .ok (db2, s) → s.status = "pending") := by
  constructor
  · unfold create_visitor_session
    cases hsel : select_door doors mode rd <;> simp [except_ok]
  · intro db2 s h
    exact (create_visitor_session_ok _ _ _ _ _ _ _ _ _ _ _ h).2.1

/-- C6 amended witness at the concrete missing-home input. -/
theorem create_session_pending_iff_door_selected_witness :
    (except_ok (create_visitor_session emptyDb "q9" "hX" ["d1"] "direct" none "Visitor" "s9" 3) =
      except_ok (select_door ["d1"] "direct" none)) ∧ c6Session.status = "pending" :=
  ⟨(create_session_pending_iff_door_selected emptyDb "q9" "hX" ["d1"] "direct" none
      "Visitor" "s9" 3).1,
   (create_session_pending_iff_door_selected emptyDb "q9" "hX" ["d1"] "direct" none
      "Visitor" "s9" 3).2 { emptyDb with sessions := [c6Session] } c6Session (by decide)⟩

/-- C9 counterexample: the state reached by create, close at 5, then approve
at 7 is reachable, and its session has ended_at stamped while its status is
the non-terminal approved — the if-and-only-if invariant fails. -/
theorem ended_at_iff_terminal_fails_cex :
    Reachable reApprovedDb ∧ ¬ ended_iff_terminal reApprovedDb := by
  constructor
  · exact Reachable.mark closedDb2 "s1" "approved" 7 reApprovedDb reApprovedSession
      (Reachable.mark pendingDb "s1" "closed" 5 closedDb2 closedSession2
        (Reachable.create emptyDb "q1" "h1" ["d1"] "direct" none "Visitor" "s1" 0
          pendingDb pendingSession (Reachable.init [] [] [] [] []) (by decide))
        (by decide))
      (by decide)
  · intro hinv
    have h2 := (hinv reApprovedSession (by decide)).mpr (by decide)
    exact absurd h2 (by decide)

/-- C9 amended: one direction of the invariant does hold along every
reachable state — a session with a terminal status always has ended_at set
(creation starts pending/null and every terminal transition stamps it). -/
theorem reachable_terminal_implies_ended_at (db : Db) (hr : Reachable db) :
    ∀ s ∈ db.sessions, terminal_statuses.contains s.status = true → s.ended_at ≠ none := by
  induction hr with
  | init users estates homes doors qr_codes =>
      intro s hs
      simp at hs
  | create db qr_id qr_home_id doors mode rd vl nid now db2 snew hre hcr ih =>
      intro s hs hterm
      obtain ⟨hsess, hstat, _⟩ := create_visitor_session_ok _ _ _ _ _ _ _ _ _ _ _ hcr
      rw [hsess] at hs
      rcases List.mem_append.mp hs with hmem | hmem
      · exact ih s hmem hterm
      · have hsn : s = snew := by simpa using hmem
        subst hsn
        rw [hstat] at hterm
        exact absurd hterm (by decide)
  | mark db session_id status now db2 s2 hre hmk ih =>
      intro s hs hterm
      obtain ⟨s0, hf, hs2, hsess⟩ := mark_session_status_some _ _ _ _ _ _ hmk
      rw [hsess] at hs
      rcases List.mem_map.mp hs with ⟨t, htmem, hts⟩
      by_cases hid : (t.id == session_id) = true
      · rw [if_pos hid] at hts
        subst hts
        subst hs2
        have hterm2 : terminal_statuses.contains status = true := hterm
        have hnone2 : (if terminal_statuses.contains status then
            (match s0.ended_at with
             | some t => some t
             | none => some now)
            else s0.ended_at) ≠ none := by
          rw [if_pos hterm2]
          cases s0.ended_at <;> simp
        exact hnone2
      · rw [if_neg hid] at hts
        subst hts
        exact ih t htmem hterm

/-- C9 amended witness: the reachable closed state has its ended_at set. -/
theorem reachable_terminal_implies_ended_at_witness :
    closedSession2.ended_at ≠ none :=
  reachable_terminal_implies_ended_at closedDb2
    (Reachable.mark pendingDb "s1" "closed" 5 closedDb2 closedSession2
      (Reachable.create emptyDb "q1" "h1" ["d1"] "direct" none "Visitor" "s1" 0
        pendingDb pendingSession (Reachable.init [] [] [] [] []) (by decide))
      (by decide))
    closedSession2 (by decide) (by decide)

/-- The persistence loop emits exactly one event, and it is always a terminal
disposition. -/
theorem persist_attempts_single_terminal (args : PersistArgs)
    (outcomes : List PersistAttempt) (last_error : String) :
    ∃ t, (persist_attempts args outcomes last_error).2 = [t] ∧
      is_terminal_disposition t = true := by
  induction outcomes generalizing last_error with
  | nil => exact ⟨_, rfl, rfl⟩
  | cons o rest ih =>
      cases o with
      | sessionNotFound => exact ⟨_, rfl, rfl⟩
      | raised err => exact ih err
      | committed hid => exact ⟨_, rfl, rfl⟩

/-- When the persistence loop inserts a row, the row's sender type is the
server-side resolution against the homeowner id of the committing attempt. -/
theorem persist_attempts_row_sender_type (args : PersistArgs)
    (outcomes : List PersistAttempt) (last_error : String) (m : MessageRow)
    (h : (persist_attempts args outcomes last_error).1 = some m) :
    ∃ hid, PersistAttempt.committed hid ∈ outcomes ∧
      m.sender_type = resolved_sender_type args.sender_user_id hid := by
  induction outcomes generalizing last_error with
  | nil => exact absurd h (by simp [persist_attempts])
  | cons o rest ih =>
      cases o with
      | sessionNotFound => exact absurd h (by simp [persist_attempts])
      | raised err =>
          obtain ⟨hid, hmem, hst⟩ := ih err h
          exact ⟨hid, List.mem_cons_of_mem _ hmem, hst⟩
      | committed hid =>
          simp only [persist_attempts, Option.some.injEq] at h
          exact ⟨hid, List.mem_cons_self _ _, by rw [← h]⟩

/-- The inserted row does not depend on the client-claimed sender hint. -/
theorem persist_attempts_row_ignores_hint (args : PersistArgs) (x : String)
    (outcomes : List PersistAttempt) (last_error : String) :
    (persist_attempts { args with optimistic_sender_type := x } outcomes last_error).1 =
      (persist_attempts args outcomes last_error).1 := by
  induction outcomes generalizing last_error with
  | nil => rfl
  | cons o rest ih =>
      cases o with
      | sessionNotFound => rfl
      | raised err => exact ih err
      | committed hid => rfl

/-- The handler's behaviour on a validated submission: the optimistic
broadcast, the queued ack, and the scheduled persistence task. -/
theorem chat_message_valid (st : SocketState) (sid : String) (payload : ChatPayload)
    (mid cat s_id : String) (h1 : payload.sessionId = some s_id) (h2 : s_id ≠ "")
    (h3 : py_strip (payload.text.getD "") ≠ "") :
    chat_message st sid payload mid cat =
      ([.chatMessage (chat_event_body (chat_args st sid payload mid cat s_id)
          (optimistic_hint payload) false) sid (room_of s_id),
        .chatAck mid s_id payload.clientId cat sid],
       some (chat_args st sid payload mid cat s_id)) := by
  unfold chat_message
  rw [h1]
  rw [if_neg ?hcond]
  case hcond =>
    push_neg
    refine ⟨?_, h3⟩
    simp [opt_truthy, h2]
  rfl

/-- A validated submission runs the handler and then the persistence task. -/
theorem chat_submission_valid (st : SocketState) (sid : String) (payload : ChatPayload)
    (mid cat : String) (outs : List PersistAttempt) (s_id : String)
    (h1 : payload.sessionId = some s_id) (h2 : s_id ≠ "")
    (h3 : py_strip (payload.text.getD "") ≠ "") :
    chat_submission st sid payload mid cat outs =
      ((persist_chat_message_with_retry (chat_args st sid payload mid cat s_id) outs).1,
       [Emit.chatMessage (chat_event_body (chat_args st sid payload mid cat s_id)
          (optimistic_hint payload) false) sid (room_of s_id),
        Emit.chatAck mid s_id payload.clientId cat sid] ++
         (persist_chat_message_with_retry (chat_args st sid payload mid cat s_id) outs).2) := by
  unfold chat_submission
  rw [chat_message_valid st sid payload mid cat s_id h1 h2 h3]

/-- C3: every chat submission that passes validation produces exactly one
optimistic chat.message broadcast carrying persisted false, followed (after
the ack) by exactly one terminal persistence disposition — chat.persisted or
chat.persist_failed — whatever the persistence attempt history. -/
theorem chat_submission_one_broadcast_one_terminal (st : SocketState) (sid : String)
    (payload : ChatPayload) (mid cat : String) (outs : List PersistAttempt) (s_id : String)
    (h1 : payload.sessionId = some s_id) (h2 : s_id ≠ "")
    (h3 : py_strip (payload.text.getD "") ≠ "") :
    ∃ b t, (chat_submission st sid payload mid cat outs).2 =
        [Emit.chatMessage b sid (room_of s_id),
         Emit.chatAck mid s_id payload.clientId cat sid, t] ∧
      b.persisted = false ∧ is_terminal_disposition t = true := by
  obtain ⟨t, ht, htd⟩ := persist_attempts_single_terminal
    (chat_args st sid payload mid cat s_id)
    (outs.take CHAT_PERSIST_RETRY_DELAYS.length) "unknown_error"
  refine ⟨chat_event_body (chat_args st sid payload mid cat s_id)
    (optimistic_hint payload) false, t, ?_, rfl, htd⟩
  rw [chat_submission_valid st sid payload mid cat outs s_id h1 h2 h3]
  show _ ++ (persist_chat_message_with_retry (chat_args st sid payload mid cat s_id) outs).2 = _
  unfold persist_chat_message_with_retry
  rw [ht]
  rfl

/-- C3 witness: a concrete validated submission with a transient failure then
a commit yields the broadcast, the ack, and one terminal disposition. -/
theorem chat_submission_one_broadcast_one_terminal_witness :
    ∃ b t, (chat_submission SocketState.empty "c9" c3Payload "m1" "t0" c3Outs).2 =
        [Emit.chatMessage b "c9" (room_of "sess1"),
         Emit.chatAck "m1" "sess1" c3Payload.clientId "t0" "c9", t] ∧
      b.persisted = false ∧ is_terminal_disposition t = true :=
  chat_submission_one_broadcast_one_terminal SocketState.empty "c9" c3Payload "m1" "t0"
    c3Outs "sess1" (by decide) (by decide) (by decide)

/-- Two payloads differing only in the claimed sender type produce task
arguments differing only in the optimistic hint. -/
theorem chat_args_hint_only (st : SocketState) (sid : String) (p1 p2 : ChatPayload)
    (mid cat s_id : String) (ht : p1.text = p2.text) (hc : p1.clientId = p2.clientId)
    (hd : p1.displayName = p2.displayName) :
    chat_args st sid p1 mid cat s_id =
      { chat_args st sid p2 mid cat s_id with optimistic_sender_type := optimistic_hint p1 } := by
  unfold chat_args display_or_default
  rw [ht, hc, hd]

/-- The persisted row of a submission, when any, carries the sender type
resolved from the presence registry identity of the submitting connection
against the homeowner id read by the committing attempt. -/
theorem chat_submission_row_spec (st : SocketState) (sid : String) (payload : ChatPayload)
    (mid cat : String) (outs : List PersistAttempt) (m : MessageRow)
    (h : (chat_submission st sid payload mid cat outs).1 = some m) :
    ∃ hid, PersistAttempt.committed hid ∈ outs ∧
      m.sender_type = resolved_sender_type (st.sid_user sid) hid := by
  unfold chat_submission chat_message at h
  by_cases hcond : opt_truthy payload.sessionId = false ∨ py_strip (payload.text.getD "") = ""
  · rw [if_pos hcond] at h
    exact absurd h (by simp)
  · rw [if_neg hcond] at h
    have h2 : (persist_chat_message_with_retry
        (chat_args st sid payload mid cat (payload.sessionId.getD "")) outs).1 = some m := h
    obtain ⟨hid, hmem, hst⟩ := persist_attempts_row_sender_type
      (chat_args st sid payload mid cat (payload.sessionId.getD ""))
      (outs.take CHAT_PERSIST_RETRY_DELAYS.length) "unknown_error" m h2
    exact ⟨hid, List.take_subset _ _ hmem, hst⟩

/-- The server-side sender resolution is homeowner exactly when the registry
identity equals the homeowner id, for any registry that never stores an empty
identity; an unauthenticated connection is always a visitor. -/
theorem resolved_sender_type_spec (u : Option String) (hid : String) (hu : u ≠ some "") :
    (resolved_sender_type u hid = "homeowner" ∨ resolved_sender_type u hid = "visitor") ∧
    (resolved_sender_type u hid = "homeowner" ↔ u = some hid) := by
  cases u with
  | none =>
      refine ⟨Or.inr rfl, ?_, ?_⟩
      · intro h
        have hvis : ("visitor" : String) = "homeowner" := h
        exact absurd hvis (by decide)
      · intro h
        exact absurd h (by simp)
  | some v =>
      have hv : v ≠ "" := fun he => hu (by rw [he])
      by_cases hvh : v = hid
      · subst hvh
        constructor
        · exact Or.inl (by simp [resolved_sender_type, hv])
        · simp [resolved_sender_type, hv]
      · constructor
        · exact Or.inr (by simp [resolved_sender_type, hvh])
        · simp [resolved_sender_type, hvh]

/-- C4: the durably persisted senderType is computed solely from the presence
registry identity of the sending connection compared with the session's
homeowner id — homeowner exactly on equality, visitor otherwise including the
unauthenticated case — and varying the client-claimed senderType, all other
inputs fixed, never changes the persisted row. -/
theorem persisted_sender_type_server_derived (st : SocketState) (sid : String)
    (p1 p2 : ChatPayload) (mid cat : String) (outs : List PersistAttempt)
    (hs : p1.sessionId = p2.sessionId) (ht : p1.text = p2.text)
    (hc : p1.clientId = p2.clientId) (hd : p1.displayName = p2.displayName)
    (hreg : st.sid_user sid ≠ some "") :
    (chat_submission st sid p1 mid cat outs).1 = (chat_submission st sid p2 mid cat outs).1 ∧
    ∀ m, (chat_submission st sid p1 mid cat outs).1 = some m →
      (m.sender_type = "homeowner" ∨ m.sender_type = "visitor") ∧
      ∃ hid, PersistAttempt.committed hid ∈ outs ∧
        (m.sender_type = "homeowner" ↔ st.sid_user sid = some hid) := by
  constructor
  · unfold chat_submission chat_message
    rw [hs, ht]
    by_cases hcond : opt_truthy p2.sessionId = false ∨ py_strip (p2.text.getD "") = ""
    · rw [if_pos hcond, if_pos hcond]
    · rw [if_neg hcond, if_neg hcond]
      show (persist_chat_message_with_retry
          (chat_args st sid p1 mid cat (p2.sessionId.getD "")) outs).1 =
        (persist_chat_message_with_retry
          (chat_args st sid p2 mid cat (p2.sessionId.getD "")) outs).1
      rw [chat_args_hint_only st sid p1 p2 mid cat (p2.sessionId.getD "") ht hc hd]
      exact persist_attempts_row_ignores_hint (chat_args st sid p2 mid cat (p2.sessionId.getD ""))
        (optimistic_hint p1) (outs.take CHAT_PERSIST_RETRY_DELAYS.length) "unknown_error"
  · intro m hm
    obtain ⟨hid, hmem, hst⟩ := chat_submission_row_spec st sid p1 mid cat outs m hm
    obtain ⟨hor, hiff⟩ := resolved_sender_type_spec (st.sid_user sid) hid hreg
    rw [hst]
    exact ⟨hor, hid, hmem, hiff⟩

/-- C4 witness: flipping the claimed sender type on a concrete submission
leaves the persisted row unchanged. -/
theorem persisted_sender_type_server_derived_witness :
    (chat_submission c4State "c9" c4Payload1 "m1" "t0" c4Outs).1 =
      (chat_submission c4State "c9" c4Payload2 "m1" "t0" c4Outs).1 :=
  (persisted_sender_type_server_derived c4State "c9" c4Payload1 c4Payload2 "m1" "t0"
    c4Outs rfl rfl rfl rfl (by decide)).1

/-- C7: once a resolution has triggered the subscription-expiry cascade, any
later resolution of any code of that estate fails with the not-found/inactive
error — never with the expired error — because the inactive check precedes
the expiry check and the cascade left every code of the estate inactive. -/
theorem resolve_qr_after_cascade_inactive (expired expired2 : String → Bool)
    (db db2 : Db) (qid : String) (qr : QRCodeRow)
    (h1 : db.qr_codes.find? (fun q => q.qr_id == qid) = some qr)
    (h2 : resolve_qr expired db qid = (db2, .error .subscriptionExpired))
    (qid2 : String) (q2 : QRCodeRow)
    (h3 : db2.qr_codes.find? (fun q => q.qr_id == qid2) = some q2)
    (h4 : q2.estate_id = qr.estate_id) :
    resolve_qr expired2 db2 qid2 = (db2, .error .notFoundInactive) := by
  simp only [resolve_qr, h1] at h2
  by_cases hact : qr.active = false
  · rw [if_pos hact] at h2
    simp only [Prod.mk.injEq] at h2
    exact absurd h2.2 (by simp)
  · rw [if_neg hact] at h2
    cases hqe : qr.estate_id with
    | none =>
        rw [hqe] at h2
        simp only [opt_truthy] at h2
        simp only [Bool.false_eq_true, if_false, Prod.mk.injEq] at h2
        exact absurd h2.2 (by simp)
    | some v =>
        rw [hqe] at h2
        rw [hqe] at h4
        by_cases htru : opt_truthy (some v) = true
        · rw [if_pos htru] at h2
          cases hest : db.estates.find? (fun e => e.id == (some v : Option String).getD "") with
          | none =>
              simp only [hest, Prod.mk.injEq] at h2
              exact absurd h2.2 (by simp)
          | some estate =>
              simp only [hest] at h2
              by_cases hexp : expired estate.owner_id = true
              · rw [if_pos hexp] at h2
                simp only [Prod.mk.injEq] at h2
                obtain ⟨hdb2, _⟩ := h2
                subst hdb2
                have hq2mem : q2 ∈ db.qr_codes.map (fun q =>
                    if q.estate_id == some ((some v : Option String).getD "") && q.active then
                      { q with active := false } else q) :=
                  List.mem_of_find?_eq_some h3
                have hq2act : q2.active = false := by
                  rcases List.mem_map.mp hq2mem with ⟨q, hqmem, hq⟩
                  by_cases hcq : (q.estate_id == some ((some v : Option String).getD "") &&
                      q.active) = true
                  · rw [if_pos hcq] at hq
                    rw [← hq]
                  · rw [if_neg hcq] at hq
                    subst hq
                    cases hq2a : q.active
                    · rfl
                    · exfalso
                      apply hcq
                      rw [hq2a, Bool.and_true, h4]
                      simp
                simp only [resolve_qr, h3]
                rw [if_pos hq2act]
              · rw [if_neg hexp] at h2
                simp only [Prod.mk.injEq] at h2
                exact absurd h2.2 (by simp)
        · rw [if_neg htru] at h2
          simp only [Prod.mk.injEq] at h2
          exact absurd h2.2 (by simp)

/-- C7 witness: after expiring estate e1 through code q1, resolving the
sibling code q2 reports not-found/inactive even though the owner is still
flagged expired. -/
theorem resolve_qr_after_cascade_inactive_witness :
    resolve_qr (fun _ => true) qrDb2 "q2" = (qrDb2, .error .notFoundInactive) :=
  resolve_qr_after_cascade_inactive (fun _ => true) (fun _ => true) qrDb qrDb2 "q1" qrA
    (by decide) (by decide) "q2" { qrB with active := false } (by decide) (by decide)

/-- The connect handlers in app/socket/events.py bind only truthy user ids,
so a registry built by such binds never stores an empty identity: bind with a
non-empty user id preserves the property. -/
theorem bind_preserves_nonempty_identities (st : SocketState) (u c : String)
    (hinv : ∀ s, st.sid_user s ≠ some "") (hu : u ≠ "") :
    ∀ s, (st.bind u c).sid_user s ≠ some "" := by
  intro s
  show (if s = c then some u else st.sid_user s) ≠ some ""
  by_cases hsc : s = c
  · rw [if_pos hsc]
    intro h
    exact hu (Option.some.inj h)
  · rw [if_neg hsc]
    exact hinv s

/-- Unbinding preserves the absence of empty identities in the registry. -/
theorem unbind_preserves_nonempty_identities (st : SocketState) (c : String)
    (hinv : ∀ s, st.sid_user s ≠ some "") :
    ∀ s, (st.unbind_sid c).sid_user s ≠ some "" := by
  intro s
  have hgen : (if s = c then none else st.sid_user s) ≠ some "" := by
    by_cases hsc : s = c
    · rw [if_pos hsc]; simp
    · rw [if_neg hsc]; exact hinv s
  cases hcu : st.sid_user c with
  | some u =>
      simp only [SocketState.unbind_sid, hcu]
      by_cases hb : st.user_sid u = some c
      · rw [if_pos hb]; exact hgen
      · rw [if_neg hb]; exact hgen
  | none =>
      simp only [SocketState.unbind_sid, hcu]
      exact hgen
